import Mathlib

/-!
# Verification of the x-mcp-server request broker

Shallow embedding of the core of the `x-mcp-server` repository: the
`TwitterClient` class (rate/quota governor `checkRateLimit`, the
`deleteTweet` fallback policy, media validation in `postTweetWithMedia`
and `uploadMedia`, the single error-mapping exit `handleApiError`), the
credential provider `createTwitterClient`, and the OAuth2 credential
refresher (`shouldRefreshToken` / `refreshAccessToken`).

Times are modelled as milliseconds since the epoch (`Nat`, or `Int` where
a difference may be negative).  JavaScript `Map`s become functions
`String → Option α`.  JavaScript truthiness of a possibly-absent string
is `truthyStr`; truthiness of a stored timestamp number is `≠ 0`.
Network calls are environment inputs: each remote interaction is a
parameter carrying the remote's response, and externally observable
actions are recorded in an event trace.
-/

namespace XMcp

/-- JavaScript error `code` values: the repository's own tagged errors use
string codes, while the platform library's errors carry numeric HTTP
status codes.  JavaScript stores either in the same field. -/
inductive ECode where
  | num (n : Nat)
  | str (s : String)
deriving DecidableEq, Repr

/-- JavaScript truthiness of a code value: `0` and `""` are falsy. -/
def ECode.truthy : ECode → Bool
  | .num n => n ≠ 0
  | .str s => s ≠ ""

/-- The `TwitterError` class from `src/types.ts`: message, machine-readable
code, optional HTTP status. -/
structure TwitterError where
  message : String
  code : ECode
  status : Option Nat
deriving DecidableEq, Repr

/-- JavaScript truthiness of an optional string (`undefined` and `""` are
falsy). -/
def truthyStr : Option String → Bool
  | some s => s ≠ ""
  | none => false

/-- The two authentication schemes of the configuration (`authType`). -/
inductive AuthType where
  | oauth1
  | oauth2
deriving DecidableEq, Repr

/-- `MAX_BASE64_SIZE` from `src/types.ts`: 15 MiB ceiling on the encoded text. -/
def MAX_BASE64_SIZE : Nat := 15 * 1024 * 1024

/-- `MAX_MEDIA_FILE_SIZE` from `src/types.ts`: 5 MiB ceiling on decoded bytes. -/
def MAX_MEDIA_FILE_SIZE : Nat := 5 * 1024 * 1024

/-- The `RATE_LIMITS_MS` record of `TwitterClient`: minimum inter-call
interval (ms) per endpoint key. -/
def RATE_LIMITS_MS (endpoint : String) : Option Nat :=
  if endpoint = "tweets/lookup" then some (15 * 60 * 1000)
  else if endpoint = "tweets/search" then some (15 * 60 * 1000)
  else if endpoint = "tweets/create" then some (60 * 1000)
  else if endpoint = "tweets/delete" then some (60 * 1000)
  else if endpoint = "media/upload" then some (60 * 1000)
  else none

/-- The `DAILY_LIMITS` record of `TwitterClient`: free-tier daily ceiling
per endpoint key (only the three mutating endpoints have one). -/
def DAILY_LIMITS (endpoint : String) : Option Nat :=
  if endpoint = "tweets/create" then some 17
  else if endpoint = "tweets/delete" then some 17
  else if endpoint = "media/upload" then some 17
  else none

/-- One day in milliseconds.  The source advances the reset time with
`resetAt.setDate(resetAt.getDate() + 1)`, which in a fixed-offset time
zone is exactly 24 hours. -/
def DAY_MS : Nat := 24 * 60 * 60 * 1000

/-- Value of a `dailyLimits` map entry: `{ count, resetAt }`. -/
structure DailyTracker where
  count : Nat
  resetAt : Nat
deriving DecidableEq, Repr

/-- Pointwise update of a string-keyed map, as `Map.set` / `Map.delete`. -/
def setMap {α : Type} (m : String → Option α) (k : String) (v : Option α) :
    String → Option α :=
  fun x => if x = k then v else m x

/-- The two mutable maps of `TwitterClient`: `rateLimitMap` (last-call
timestamp per endpoint key) and `dailyLimits` (daily counter per key). -/
structure RateState where
  rateLimitMap : String → Option Nat
  dailyLimits : String → Option DailyTracker

/-- Both maps start empty. -/
def emptyState : RateState :=
  { rateLimitMap := fun _ => none, dailyLimits := fun _ => none }

/-- `this.rateLimitMap.set(k, t)`. -/
def RateState.setRate (st : RateState) (k : String) (t : Nat) : RateState :=
  ⟨setMap st.rateLimitMap k (some t), st.dailyLimits⟩

/-- `this.dailyLimits.set(k, v)` (or `delete` for `none`). -/
def RateState.setDaily (st : RateState) (k : String) (v : Option DailyTracker) :
    RateState :=
  ⟨st.rateLimitMap, setMap st.dailyLimits k v⟩

/-- The rate-limit error thrown by `checkRateLimit`. -/
def rateLimitErrorFor (endpoint : String) (waitTime : Nat) : TwitterError :=
  { message := "Rate limit: Please wait " ++ toString waitTime ++
      " seconds before next " ++ endpoint ++ " request"
    code := .str "rate_limit_exceeded"
    status := some 429 }

/-- The daily-limit error thrown by `checkRateLimit`. -/
def dailyLimitErrorFor (dailyLimit hoursUntilReset : Nat) : TwitterError :=
  { message := "Daily limit exceeded (" ++ toString dailyLimit ++
      " per 24h). Resets in " ++ toString hoursUntilReset ++ " hours."
    code := .str "daily_limit_exceeded"
    status := some 429 }

/-- First section of `TwitterClient.checkRateLimit` (build-dxt.js lines
515-529): the per-request interval check.  Returns the rate-limit error to
throw, if any.  `Math.ceil` of a division of nonnegative milliseconds is
`(x + d - 1) / d` on `Nat`; the JavaScript `if (lastRequest)` truthiness
test is `lastRequest ≠ 0`. -/
def rateErrorOf (st : RateState) (endpoint : String) (now : Nat) :
    Option TwitterError :=
  let rateLimit := (RATE_LIMITS_MS endpoint).getD 1000
  match st.rateLimitMap endpoint with
  | some lastRequest =>
    if lastRequest ≠ 0 then
      let timeSinceLastRequest := now - lastRequest
      if timeSinceLastRequest < rateLimit then
        some (rateLimitErrorFor endpoint
          ((rateLimit - timeSinceLastRequest + 999) / 1000))
      else none
    else none
  | none => none

/-- Second section of `TwitterClient.checkRateLimit` (build-dxt.js lines
531-561): daily-ceiling bookkeeping, then the unconditional recording of
the last-call timestamp on the success path. -/
def checkDailyLimit (st : RateState) (endpoint : String) (now : Nat) :
    Except (TwitterError × RateState) RateState :=
  match DAILY_LIMITS endpoint with
  | some dailyLimit =>
    let st1 :=
      match st.dailyLimits endpoint with
      | some dailyTracker =>
        if dailyTracker.resetAt < now then st.setDaily endpoint none else st
      | none => st
    match st1.dailyLimits endpoint with
    | some current =>
      if dailyLimit ≤ current.count then
        .error (dailyLimitErrorFor dailyLimit
          ((current.resetAt - now + (3600000 - 1)) / 3600000), st1)
      else
        .ok ((st1.setDaily endpoint
          (some ⟨current.count + 1, current.resetAt⟩)).setRate endpoint now)
    | none =>
      .ok ((st1.setDaily endpoint (some ⟨1, now + DAY_MS⟩)).setRate endpoint now)
  | none =>
    .ok (st.setRate endpoint now)

/-- `TwitterClient.checkRateLimit` (build-dxt.js lines 512-562).  A throw
is modelled as `.error (e, st)` where `st` is the state of the two maps at
the moment of the throw; success returns the updated state. -/
def checkRateLimit (st : RateState) (endpoint : String) (now : Nat) :
    Except (TwitterError × RateState) RateState :=
  match rateErrorOf st endpoint now with
  | some e => .error (e, st)
  | none => checkDailyLimit st endpoint now

/-- Run `checkRateLimit` on one endpoint key at each time in the list,
stopping at the first throw. -/
def runCalls (ep : String) : RateState → List Nat →
    Except (TwitterError × RateState) RateState
  | st, [] => .ok st
  | st, t :: ts =>
    match checkRateLimit st ep t with
    | .ok st' => runCalls ep st' ts
    | .error e => .error e

/-- `k` call times starting at `t0`, spaced `d` milliseconds apart. -/
def spacedTimes (t0 d k : Nat) : List Nat :=
  (List.range k).map (fun i => t0 + i * d)

/-- Error-code projection of a call-sequence result. -/
def resultErrCode :
    Except (TwitterError × RateState) RateState → Option ECode
  | .error (e, _) => some e.code
  | .ok _ => none

/-- A state that has already served one `tweets/create` call at time 1000. -/
def c10State : RateState :=
  (emptyState.setDaily "tweets/create" (some ⟨1, 1000 + DAY_MS⟩)).setRate
    "tweets/create" 1000

/-- Same maps written in the other update order (definitionally equal). -/
def c10StateAlt : RateState :=
  (emptyState.setRate "tweets/create" 1000).setDaily "tweets/create"
    (some ⟨1, 1000 + DAY_MS⟩)

/-- State after a successful first `tweets/create` call at time 100000. -/
def c1After : RateState :=
  (emptyState.setDaily "tweets/create" (some ⟨1, 100000 + DAY_MS⟩)).setRate
    "tweets/create" 100000

/-! ### Error mapping (`handleApiError`) and `deleteTweet` -/

/-- Exceptions observed by the client's catch blocks: the repository's own
tagged `TwitterError`s, platform-library error objects (an `Error` with a
message and optional machine-readable `code` / `status` fields), and
non-`Error` thrown values. -/
inductive Exn where
  | twitter (e : TwitterError)
  | api (message : String) (code : Option ECode) (status : Option Nat)
  | other
deriving DecidableEq, Repr

/-- The `code` field read by `v2Error.code === 500`. -/
def Exn.jsCode : Exn → Option ECode
  | .twitter e => some e.code
  | .api _ c _ => c
  | .other => none

/-- The generic wrapped error of `handleApiError`'s last resort. -/
def internalError : TwitterError :=
  { message := "An unexpected error occurred"
    code := .str "internal_error"
    status := some 500 }

/-- `TwitterClient.handleApiError` (build-dxt.js lines 564-598): rethrow a
`TwitterError` unchanged; wrap an error with a truthy `code` preserving
code and status (message defaulted when falsy); wrap anything else into
the generic internal error. -/
def handleApiError (error : Exn) : TwitterError :=
  match error with
  | .twitter e => e
  | .api message code status =>
    match code with
    | some c =>
      if c.truthy then
        { message := if message ≠ "" then message else "Twitter API error"
          code := c
          status := status }
      else internalError
    | none => internalError
  | .other => internalError

/-- The OAuth 2.0 incompatibility error of the delete fallback. -/
def deleteUnavailableError : TwitterError :=
  { message := "Tweet deletion failed: Twitter v2 delete endpoint is currently experiencing issues (500 error). Unfortunately, OAuth 2.0 cannot use the v1.1 fallback. Please try again later or use OAuth 1.0a."
    code := .str "delete_unavailable"
    status := some 500 }

/-- `TwitterClient.deleteTweet` (build-dxt.js lines 458-510).  The v2 and
v1.1 network calls are environment inputs: `v2Outcome` is the result of
`client.v2.deleteTweet` (`ok` carries `response.data.deleted`), and
`v1Outcome` the result of `client.v1.post('statuses/destroy/...')` (`ok`
carries the optional `id_str` of the returned tweet; `!!v1Response.id_str`
is `truthyStr`).  Result components: the caller-observed outcome after the
outer catch's `handleApiError`, whether the legacy v1.1 endpoint was
invoked, and the rate state after the call. -/
def deleteTweet (st : RateState) (now : Nat) (authType : AuthType)
    (v2Outcome : Except Exn Bool) (v1Outcome : Except Exn (Option String)) :
    (Except TwitterError Bool) × Bool × RateState :=
  match checkRateLimit st "tweets/delete" now with
  | .error (e, st') => (.error (handleApiError (.twitter e)), false, st')
  | .ok st' =>
    match v2Outcome with
    | .ok deleted => (.ok deleted, false, st')
    | .error v2Error =>
      if v2Error.jsCode = some (.num 500) then
        match authType with
        | .oauth1 =>
          match v1Outcome with
          | .ok id_str => (.ok (truthyStr id_str), true, st')
          | .error e => (.error (handleApiError e), true, st')
        | .oauth2 =>
          (.error (handleApiError (.twitter deleteUnavailableError)), false, st')
      else
        (.error (handleApiError v2Error), false, st')

/-! ### Credential provider (`createTwitterClient`) -/

/-- The configuration record (`Config` from `src/types.ts`), with the
string credentials as JavaScript optional strings.  The raw
`oauth2TokenExpiresAt` ISO string is consumed only by the OAuth2 handler's
constructor; its parsed value appears below as `tokenExpiresAt`. -/
structure Config where
  apiKey : Option String
  apiSecretKey : Option String
  accessToken : Option String
  accessTokenSecret : Option String
  authType : AuthType
  oauth2ClientId : Option String
  oauth2ClientSecret : Option String
  oauth2AccessToken : Option String
  oauth2RefreshToken : Option String
deriving DecidableEq, Repr

/-- The session handle built by the credential provider: a `TwitterApi`
instance holding either the four OAuth 1.0a credentials or a bearer
token.  Constructing it performs no network call. -/
inductive TwitterApiHandle where
  | oauth1Client (appKey appSecret accessToken accessSecret : String)
  | bearerClient (token : String)
deriving DecidableEq, Repr

/-- `createTwitterClient` from `src/auth/factory.ts` (lines 11-43):
validate the active scheme's credentials and construct the session
handle, or throw the branch's descriptive error. -/
def createTwitterClient (config : Config) : Except String TwitterApiHandle :=
  if config.authType = .oauth2 then
    if truthyStr config.oauth2AccessToken = false then
      .error "OAuth 2.0 access token is required when using OAuth 2.0 authentication. Please check your OAUTH2_ACCESS_TOKEN environment variable."
    else
      .ok (.bearerClient (config.oauth2AccessToken.getD ""))
  else
    if !truthyStr config.apiKey || !truthyStr config.apiSecretKey ||
        !truthyStr config.accessToken || !truthyStr config.accessTokenSecret then
      .error "OAuth 1.0a requires all four credentials: API_KEY, API_SECRET_KEY, ACCESS_TOKEN, and ACCESS_TOKEN_SECRET. Please check your environment variables."
    else
      .ok (.oauth1Client (config.apiKey.getD "") (config.apiSecretKey.getD "")
        (config.accessToken.getD "") (config.accessTokenSecret.getD ""))

/-- A configuration with a full OAuth 1.0a branch. -/
def fullOauth1Config : Config :=
  ⟨some "k", some "s", some "t", some "ts", .oauth1, none, none, none, none⟩

/-- Same, but with only the API key missing. -/
def cfgMissingApiKey : Config :=
  ⟨none, some "s", some "t", some "ts", .oauth1, none, none, none, none⟩

/-- Same, but with only the access-token secret missing. -/
def cfgMissingTokenSecret : Config :=
  ⟨some "k", some "s", some "t", none, .oauth1, none, none, none, none⟩

/-! ### OAuth2 credential refresher -/

/-- `OAuth2Handler.shouldRefreshToken` (src/unnamed/part_002 lines 46-55).
`tokenExpiresAt` is the handler's parsed expiry (ms since epoch); it is
absent when the configuration carried no expiry string. -/
def shouldRefreshToken (tokenExpiresAt : Option Int)
    (oauth2RefreshToken : Option String) (now : Int) : Bool :=
  match tokenExpiresAt with
  | none => false
  | some expiresAt =>
    if truthyStr oauth2RefreshToken = false then false
    else decide (expiresAt - now < 5 * 60 * 1000)

/-- Outcome of the token-refresh `fetch`: HTTP ok flag, error body text
for the non-ok case, and the parsed token payload for the ok case. -/
structure RefreshResponse where
  ok : Bool
  errorText : String
  access_token : String
  refresh_token : Option String
  expires_in : Nat
deriving DecidableEq, Repr

/-- `OAuth2Handler.refreshAccessToken` (src/unnamed/part_002 lines
60-117): on success, the updated configuration and the new expiry time.
The two credential guards throw before the try block; a non-ok exchange
response throws inside it and is wrapped by the catch. -/
def refreshAccessToken (config : Config) (resp : RefreshResponse)
    (now : Int) : Except String (Config × Int) :=
  if truthyStr config.oauth2RefreshToken = false then
    .error "No refresh token available. Please re-authenticate using scripts/oauth2-setup.js"
  else if !truthyStr config.oauth2ClientId ||
      !truthyStr config.oauth2ClientSecret then
    .error "Client ID and secret required for token refresh"
  else if resp.ok = false then
    .error ("Failed to refresh OAuth 2.0 token: Token refresh failed: " ++
      resp.errorText)
  else
    let newRefresh :=
      if truthyStr resp.refresh_token then resp.refresh_token
      else config.oauth2RefreshToken
    .ok (⟨config.apiKey, config.apiSecretKey, config.accessToken,
      config.accessTokenSecret, config.authType, config.oauth2ClientId,
      config.oauth2ClientSecret, some resp.access_token, newRefresh⟩,
      now + resp.expires_in * 1000)

/-- `OAuth2Handler.getClient` (src/unnamed/part_002 lines 27-41) for a
freshly constructed handler (no cached client): refresh exactly when
`shouldRefreshToken`, then construct the client — from the refreshed
token, or from the configured one (truthiness-guarded).  First component:
whether a refresh was performed. -/
def getClient (tokenExpiresAt : Option Int) (config : Config)
    (resp : RefreshResponse) (now : Int) :
    Bool × Except String TwitterApiHandle :=
  if shouldRefreshToken tokenExpiresAt config.oauth2RefreshToken now then
    (true,
      match refreshAccessToken config resp now with
      | .error e => .error e
      | .ok _ => .ok (.bearerClient resp.access_token))
  else
    (false,
      if truthyStr config.oauth2AccessToken = false then
        .error "OAuth 2.0 access token is required. Run scripts/oauth2-setup.js to authenticate."
      else .ok (.bearerClient (config.oauth2AccessToken.getD "")))

/-! ### Base64 codec (Node `Buffer` semantics) -/

/-- The base64 alphabet, as used by Node's `Buffer` base64 codec. -/
def base64Chars : List Char :=
  "ABCDEFGHIJKLMNOPQRSTUVWXYZabcdefghijklmnopqrstuvwxyz0123456789+/".toList

/-- Index of a character in the base64 alphabet; `none` for the characters
the forgiving Node decoder skips (padding, whitespace, anything invalid). -/
def b64Index (c : Char) : Option Nat :=
  base64Chars.findIdx? (fun x => x = c)

/-- `buffer.toString('base64')` on a byte list: 3 bytes become 4 alphabet
characters, a trailing group of 2 or 1 bytes is padded with `=`. -/
def encodeGroups : List Nat → List Char
  | b1 :: b2 :: b3 :: rest =>
    base64Chars.getD (b1 / 4) 'A' ::
    base64Chars.getD ((b1 % 4) * 16 + b2 / 16) 'A' ::
    base64Chars.getD ((b2 % 16) * 4 + b3 / 64) 'A' ::
    base64Chars.getD (b3 % 64) 'A' :: encodeGroups rest
  | [b1, b2] =>
    [base64Chars.getD (b1 / 4) 'A',
     base64Chars.getD ((b1 % 4) * 16 + b2 / 16) 'A',
     base64Chars.getD ((b2 % 16) * 4) 'A', '=']
  | [b1] =>
    [base64Chars.getD (b1 / 4) 'A',
     base64Chars.getD ((b1 % 4) * 16) 'A', '=', '=']
  | [] => []

/-- `buffer.toString('base64')`. -/
def encodeBase64 (bytes : List Nat) : String := String.mk (encodeGroups bytes)

/-- Sextet values of an encoded string's characters, skipping characters
outside the alphabet. -/
def toSextets (s : String) : List Nat := s.toList.filterMap b64Index

/-- Reassemble bytes from sextets: 4 sextets give 3 bytes; a trailing
group of 3 gives 2 bytes, of 2 gives 1 byte; a lone sextet is dropped. -/
def sextetsToBytes : List Nat → List Nat
  | a :: b :: c :: d :: rest =>
    (a * 4 + b / 16) :: ((b % 16) * 16 + c / 4) :: ((c % 4) * 64 + d) ::
      sextetsToBytes rest
  | [a, b, c] => [a * 4 + b / 16, (b % 16) * 16 + c / 4]
  | [a, b] => [a * 4 + b / 16]
  | [_] => []
  | [] => []

/-- `Buffer.from(s, 'base64')`. -/
def decodeBase64 (s : String) : List Nat := sextetsToBytes (toSextets s)

/-! ### Media pipeline (`postTweetWithMedia` / `uploadMedia`) -/

/-- A media item of the tool input: base64 payload plus MIME kind. -/
structure MediaItem where
  data : String
  media_type : String
deriving DecidableEq, Repr

/-- Externally observable actions of a `postTweetWithMedia` run. -/
inductive Event where
  | rateCheck (endpoint : String)
  | decodeAttempt (idx : Nat)
  | networkUpload (idx : Nat) (mediaId : String)
  | dispatchTweet (media_ids : Option (List String))
deriving DecidableEq, Repr

/-- Execution state threaded through `postTweetWithMedia`: the rate maps,
the clock tick (one per `checkRateLimit` invocation), the number of
network uploads performed so far, and the event trace. -/
structure PTMState where
  rs : RateState
  tick : Nat
  uploadsDone : Nat
  trace : List Event

/-- Append one event to the trace. -/
def PTMState.addEvent (s : PTMState) (e : Event) : PTMState :=
  ⟨s.rs, s.tick, s.uploadsDone, s.trace ++ [e]⟩

/-- `Math.round(n / 1024 / 1024)` for nonnegative `n`. -/
def mbRound (n : Nat) : Nat := (2 * n + 1048576) / 2097152

/-- The encoded-size error of `postTweetWithMedia` (build-dxt.js 316-322). -/
def base64TooLargeError : TwitterError :=
  { message := "Base64 media data too large. Maximum size is " ++
      toString (mbRound MAX_BASE64_SIZE) ++ "MB encoded."
    code := .str "base64_too_large"
    status := some 400 }

/-- The round-trip failure error of `postTweetWithMedia` (lines 337-343). -/
def invalidBase64Error : TwitterError :=
  { message := "Invalid base64 media data. Please ensure your media is properly base64 encoded."
    code := .str "invalid_base64"
    status := some 400 }

/-- The decoded-size error of `uploadMedia` (build-dxt.js lines 239-245). -/
def fileTooLargeError (len : Nat) : TwitterError :=
  { message := "Media file too large. Maximum size is " ++
      toString (mbRound MAX_MEDIA_FILE_SIZE) ++ "MB. Your file is " ++
      toString (mbRound len) ++ "MB."
    code := .str "file_too_large"
    status := some 400 }

/-- The rewritten permission error of `uploadMedia`'s catch heuristic. -/
def mediaUploadForbiddenError : TwitterError :=
  { message := "Media upload failed: This might be a scope issue (needs media.write) or authentication problem."
    code := .str "media_upload_forbidden"
    status := some 403 }

/-- JavaScript `hay.includes(needle)`, over the character lists. -/
def containsSubAux (needle : List Char) : List Char → Bool
  | [] => needle.isPrefixOf []
  | c :: rest => needle.isPrefixOf (c :: rest) || containsSubAux needle rest

/-- JavaScript `hay.includes(needle)`. -/
def containsSub (hay needle : String) : Bool :=
  containsSubAux needle.toList hay.toList

/-- `TwitterClient.uploadMedia` (build-dxt.js lines 236-283), as invoked
from `postTweetWithMedia` with an already decoded buffer.  The remote
upload (v1.1 or v2, per auth scheme) is an environment input: `uploads n`
is the media id the remote returns for the `n`-th upload of the run;
`clock n` is the wall-clock time at the `n`-th `checkRateLimit`
invocation.  The catch block applies the scope/403 message heuristic to
any error thrown inside the try block, and otherwise funnels it through
`handleApiError`. -/
def uploadMediaM (clock : Nat → Nat) (uploads : Nat → String) (s : PTMState)
    (idx : Nat) (buffer : List Nat) (mimeType : String) :
    Except (TwitterError × PTMState) (String × PTMState) :=
  let attempt : Except (TwitterError × PTMState) (String × PTMState) :=
    if buffer.length > MAX_MEDIA_FILE_SIZE then
      .error (fileTooLargeError buffer.length, s)
    else
      match checkRateLimit s.rs "media/upload" (clock s.tick) with
      | .error (e, rs') =>
        .error (e, ⟨rs', s.tick + 1, s.uploadsDone,
          s.trace ++ [.rateCheck "media/upload"]⟩)
      | .ok rs' =>
        .ok (uploads s.uploadsDone,
          ⟨rs', s.tick + 1, s.uploadsDone + 1,
            s.trace ++ [.rateCheck "media/upload",
              .networkUpload idx (uploads s.uploadsDone)]⟩)
  match attempt with
  | .ok r => .ok r
  | .error (e, s') =>
    if containsSub e.message "scope" || containsSub e.message "403" then
      .error (mediaUploadForbiddenError, s')
    else
      .error (handleApiError (.twitter e), s')

/-- The media loop of `TwitterClient.postTweetWithMedia` (build-dxt.js
lines 314-347): per item, the encoded-size ceiling, the base64 decode and
round-trip check, then `uploadMedia`; media ids are collected in input
order.  `i` is the index of the head of `items` in the original list. -/
def processItems (clock : Nat → Nat) (uploads : Nat → String) :
    PTMState → Nat → List MediaItem →
    Except (TwitterError × PTMState) (List String × PTMState)
  | s, _, [] => .ok ([], s)
  | s, i, item :: rest =>
    if item.data.length > MAX_BASE64_SIZE then
      .error (base64TooLargeError, s)
    else
      let s1 := s.addEvent (.decodeAttempt i)
      let buffer := decodeBase64 item.data
      if encodeBase64 buffer ≠ item.data then
        .error (invalidBase64Error, s1)
      else
        match uploadMediaM clock uploads s1 i buffer item.media_type with
        | .error e => .error e
        | .ok (mediaId, s2) =>
          match processItems clock uploads s2 (i + 1) rest with
          | .ok (ids, s3) => .ok (mediaId :: ids, s3)
          | .error e => .error e

/-- The tweet object of the platform's dispatch response. -/
structure PostedTweet where
  id : String
  text : String
deriving DecidableEq, Repr

/-- `TwitterClient.postTweetWithMedia` (build-dxt.js lines 299-374): one
`tweets/create` quota check, then the media loop when the list is
non-empty, then dispatch of the composed request (the `media.media_ids`
field is set only in the non-empty case); the outer catch funnels every
thrown error through `handleApiError`.  `tweetResp` is the platform's
response to the dispatch. -/
def postTweetWithMedia (clock : Nat → Nat) (uploads : Nat → String)
    (rs0 : RateState) (text : String) (replyToTweetId : Option String)
    (mediaItems : List MediaItem) (tweetResp : PostedTweet) :
    Except (TwitterError × PTMState) (PostedTweet × PTMState) :=
  match checkRateLimit rs0 "tweets/create" (clock 0) with
  | .error (e, rs') =>
    .error (handleApiError (.twitter e),
      ⟨rs', 1, 0, [.rateCheck "tweets/create"]⟩)
  | .ok rs' =>
    let s1 : PTMState := ⟨rs', 1, 0, [.rateCheck "tweets/create"]⟩
    if mediaItems.length > 0 then
      match processItems clock uploads s1 0 mediaItems with
      | .error (e, s') => .error (handleApiError (.twitter e), s')
      | .ok (mediaIds, s2) =>
        .ok (tweetResp, s2.addEvent (.dispatchTweet (some mediaIds)))
    else
      .ok (tweetResp, s1.addEvent (.dispatchTweet none))

/-- The events contributed by `n` successfully processed media items
starting at item index `i` with `u` uploads already performed. -/
def itemsEvents (uploads : Nat → String) : Nat → Nat → Nat → List Event
  | _, _, 0 => []
  | i, u, n + 1 =>
    .decodeAttempt i :: .rateCheck "media/upload" ::
      .networkUpload i (uploads u) :: itemsEvents uploads (i + 1) (u + 1) n

/-- Media ids returned for `n` consecutive uploads starting at upload `u`. -/
def idsFrom (uploads : Nat → String) : Nat → Nat → List String
  | _, 0 => []
  | u, n + 1 => uploads u :: idsFrom uploads (u + 1) n

/-- Trace projection of a pipeline result (defined on both outcomes). -/
def runTrace {α : Type} :
    Except (TwitterError × PTMState) (α × PTMState) → List Event
  | .ok (_, s) => s.trace
  | .error (_, s) => s.trace

/-- Error projection of a pipeline result. -/
def runError {α : Type} :
    Except (TwitterError × PTMState) (α × PTMState) → Option TwitterError
  | .ok _ => none
  | .error (e, _) => some e

/-! ### Concrete inputs for witnesses and counterexamples -/

/-- A 15 MiB + 1 character payload of `'x'`s. -/
def bigX : String := String.mk (List.replicate (MAX_BASE64_SIZE + 1) 'x')

/-- A decoded buffer of 403 MiB = 422576128 bytes (only reachable by
calling `uploadMedia` directly): its size message contains the substring
`403`. -/
def bigBuf : List Nat := List.replicate 422576128 0

/-- A 5 MiB + 1 byte buffer of zeros. -/
def c5Bytes : List Nat := List.replicate (MAX_MEDIA_FILE_SIZE + 1) 0

/-- A valid media item whose decoded size exceeds the 5 MiB ceiling. -/
def c5Item : MediaItem := ⟨encodeBase64 c5Bytes, "image/png"⟩

/-- A trivial starting pipeline state. -/
def s0PTM : PTMState := ⟨emptyState, 0, 0, []⟩

/-- A media item whose encoded text exceeds the 15 MiB ceiling (and, its
length not being a multiple of 4, necessarily fails the round-trip). -/
def c4Item : MediaItem := ⟨bigX, "image/png"⟩

/-- Two small valid media items (`"QUJD"` decodes to the bytes of `ABC`). -/
def items2 : List MediaItem :=
  [⟨"QUJD", "image/png"⟩, ⟨"QUJD", "image/gif"⟩]

/-- A clock whose consecutive `checkRateLimit` calls are 61 s apart. -/
def clock61 : Nat → Nat := fun k => 1 + k * 61000

/-- A deterministic media-id oracle. -/
def uploadsDet : Nat → String := fun n => "media" ++ toString n

/-! ## Theorems -/

@[simp] theorem setMap_same {α : Type} (m : String → Option α) (k : String)
    (v : Option α) : setMap m k v k = v := by
  simp [setMap]

theorem setMap_ne {α : Type} (m : String → Option α) (k x : String)
    (v : Option α) (h : x ≠ k) : setMap m k v x = m x := by
  simp [setMap, h]

@[simp] theorem RateState.setRate_rate (st : RateState) (k : String) (t : Nat) :
    (st.setRate k t).rateLimitMap k = some t := by
  simp [RateState.setRate]

@[simp] theorem RateState.setRate_daily (st : RateState) (k : String) (t : Nat) :
    (st.setRate k t).dailyLimits = st.dailyLimits := rfl

@[simp] theorem RateState.setDaily_daily (st : RateState) (k : String)
    (v : Option DailyTracker) : (st.setDaily k v).dailyLimits k = v := by
  simp [RateState.setDaily]

@[simp] theorem RateState.setDaily_rate (st : RateState) (k : String)
    (v : Option DailyTracker) : (st.setDaily k v).rateLimitMap = st.rateLimitMap := rfl

/-! ### Characterization lemmas for `checkRateLimit` -/

theorem rateErrorOf_none_of_empty (st : RateState) (ep : String) (now : Nat)
    (h : st.rateLimitMap ep = none) : rateErrorOf st ep now = none := by
  simp [rateErrorOf, h]

theorem rateErrorOf_none_of_spaced (st : RateState) (ep : String) (now l : Nat)
    (h : st.rateLimitMap ep = some l)
    (hge : (RATE_LIMITS_MS ep).getD 1000 ≤ now - l) :
    rateErrorOf st ep now = none := by
  simp only [rateErrorOf, h]
  split
  · rw [if_neg (by omega)]
  · rfl

theorem rateErrorOf_some (st : RateState) (ep : String) (now l : Nat)
    (h : st.rateLimitMap ep = some l) (hl : l ≠ 0)
    (hlt : now - l < (RATE_LIMITS_MS ep).getD 1000) :
    rateErrorOf st ep now = some (rateLimitErrorFor ep
      (((RATE_LIMITS_MS ep).getD 1000 - (now - l) + 999) / 1000)) := by
  simp [rateErrorOf, h, hl, hlt]

theorem checkRateLimit_rate_throw (st : RateState) (ep : String) (now l : Nat)
    (h : st.rateLimitMap ep = some l) (hl : l ≠ 0)
    (hlt : now - l < (RATE_LIMITS_MS ep).getD 1000) :
    checkRateLimit st ep now = .error (rateLimitErrorFor ep
      (((RATE_LIMITS_MS ep).getD 1000 - (now - l) + 999) / 1000), st) := by
  rw [checkRateLimit, rateErrorOf_some st ep now l h hl hlt]

theorem checkDailyLimit_no_ceiling (st : RateState) (ep : String) (now : Nat)
    (h : DAILY_LIMITS ep = none) :
    checkDailyLimit st ep now = .ok (st.setRate ep now) := by
  simp [checkDailyLimit, h]

theorem checkDailyLimit_fresh (st : RateState) (ep : String) (now dl : Nat)
    (h : DAILY_LIMITS ep = some dl) (hd : st.dailyLimits ep = none) :
    checkDailyLimit st ep now =
      .ok ((st.setDaily ep (some ⟨1, now + DAY_MS⟩)).setRate ep now) := by
  simp [checkDailyLimit, h, hd]

theorem checkDailyLimit_stale (st : RateState) (ep : String) (now dl c r : Nat)
    (h : DAILY_LIMITS ep = some dl) (hd : st.dailyLimits ep = some ⟨c, r⟩)
    (hr : r < now) :
    checkDailyLimit st ep now =
      .ok (((st.setDaily ep none).setDaily ep
        (some ⟨1, now + DAY_MS⟩)).setRate ep now) := by
  simp [checkDailyLimit, h, hd, hr]

theorem checkDailyLimit_increment (st : RateState) (ep : String) (now dl c r : Nat)
    (h : DAILY_LIMITS ep = some dl) (hd : st.dailyLimits ep = some ⟨c, r⟩)
    (hr : ¬ r < now) (hc : c < dl) :
    checkDailyLimit st ep now =
      .ok ((st.setDaily ep (some ⟨c + 1, r⟩)).setRate ep now) := by
  simp [checkDailyLimit, h, hd, hr, Nat.not_le.mpr hc]

theorem checkDailyLimit_throw (st : RateState) (ep : String) (now dl c r : Nat)
    (h : DAILY_LIMITS ep = some dl) (hd : st.dailyLimits ep = some ⟨c, r⟩)
    (hr : ¬ r < now) (hc : dl ≤ c) :
    checkDailyLimit st ep now =
      .error (dailyLimitErrorFor dl ((r - now + (3600000 - 1)) / 3600000), st) := by
  simp [checkDailyLimit, h, hd, hr, hc]

/-- On every success path the last-call timestamp of the checked endpoint is
recorded as `now`. -/
theorem checkRateLimit_ok_last (st st' : RateState) (ep : String) (now : Nat)
    (h : checkRateLimit st ep now = .ok st') :
    st'.rateLimitMap ep = some now := by
  rw [checkRateLimit] at h
  rcases hre : rateErrorOf st ep now with _ | e <;> rw [hre] at h
  · rcases hdl : DAILY_LIMITS ep with _ | dl
    · rw [checkDailyLimit_no_ceiling st ep now hdl] at h
      cases h; simp
    · rcases hd : st.dailyLimits ep with _ | ⟨c, r⟩
      · rw [checkDailyLimit_fresh st ep now dl hdl hd] at h
        cases h; simp
      · by_cases hr : r < now
        · rw [checkDailyLimit_stale st ep now dl c r hdl hd hr] at h
          cases h; simp
        · by_cases hc : dl ≤ c
          · rw [checkDailyLimit_throw st ep now dl c r hdl hd hr hc] at h
            exact Except.noConfusion h
          · rw [checkDailyLimit_increment st ep now dl c r hdl hd hr (by omega)] at h
            cases h; simp
  · exact Except.noConfusion h

/-- Any error produced by the daily-ceiling section carries the
`daily_limit_exceeded` code. -/
theorem checkDailyLimit_error_code (st st' : RateState) (ep : String) (now : Nat)
    (e : TwitterError) (h : checkDailyLimit st ep now = .error (e, st')) :
    e.code = .str "daily_limit_exceeded" := by
  rcases hdl : DAILY_LIMITS ep with _ | dl
  · rw [checkDailyLimit_no_ceiling st ep now hdl] at h
    exact Except.noConfusion h
  · rcases hd : st.dailyLimits ep with _ | ⟨c, r⟩
    · rw [checkDailyLimit_fresh st ep now dl hdl hd] at h
      exact Except.noConfusion h
    · by_cases hr : r < now
      · rw [checkDailyLimit_stale st ep now dl c r hdl hd hr] at h
        exact Except.noConfusion h
      · by_cases hc : dl ≤ c
        · rw [checkDailyLimit_throw st ep now dl c r hdl hd hr hc] at h
          cases h; rfl
        · rw [checkDailyLimit_increment st ep now dl c r hdl hd hr (by omega)] at h
          exact Except.noConfusion h

/-- **C10**: `checkRateLimit` is atomic on failure — whenever it throws
(rate-limit or daily-limit error), the last-call-timestamp map and the
daily-counter map are exactly as they were before the call; the timestamp
is recorded and the counter incremented or initialized only on success. -/
theorem checkRateLimit_atomic_on_failure (st st' : RateState) (ep : String)
    (now : Nat) (e : TwitterError)
    (h : checkRateLimit st ep now = .error (e, st')) :
    st' = st := by
  rw [checkRateLimit] at h
  rcases hre : rateErrorOf st ep now with _ | e0 <;> rw [hre] at h
  · rcases hdl : DAILY_LIMITS ep with _ | dl
    · rw [checkDailyLimit_no_ceiling st ep now hdl] at h
      exact Except.noConfusion h
    · rcases hd : st.dailyLimits ep with _ | ⟨c, r⟩
      · rw [checkDailyLimit_fresh st ep now dl hdl hd] at h
        exact Except.noConfusion h
      · by_cases hr : r < now
        · rw [checkDailyLimit_stale st ep now dl c r hdl hd hr] at h
          exact Except.noConfusion h
        · by_cases hc : dl ≤ c
          · rw [checkDailyLimit_throw st ep now dl c r hdl hd hr hc] at h
            cases h; rfl
          · rw [checkDailyLimit_increment st ep now dl c r hdl hd hr (by omega)] at h
            exact Except.noConfusion h
  · cases h; rfl

theorem checkRateLimit_atomic_on_failure_witness : c10StateAlt = c10State :=
  checkRateLimit_atomic_on_failure c10State c10StateAlt "tweets/create" 1500
    (rateLimitErrorFor "tweets/create" 60) rfl

/-- **C1**: for every endpoint key with a configured minimum inter-call
interval, if `checkRateLimit` succeeded for the key at time `t` (a real
epoch timestamp, so `0 < t`), a second call at `t' ≥ t` with `t' - t`
below the interval throws the `rate_limit_exceeded` error (status 429)
whose named wait time is the ceiling in whole seconds of the remaining
interval and is at least 1 second, while a second call at or after
`t + interval` never throws the rate-limit error. -/
theorem rate_interval_enforced (ep : String) (interval : Nat)
    (hconf : RATE_LIMITS_MS ep = some interval)
    (st st' : RateState) (t t' : Nat) (ht : 0 < t) (htt : t ≤ t')
    (hsucc : checkRateLimit st ep t = .ok st') :
    (t' - t < interval →
      checkRateLimit st' ep t' =
        .error (rateLimitErrorFor ep ((interval - (t' - t) + 999) / 1000), st') ∧
      1 ≤ (interval - (t' - t) + 999) / 1000 ∧
      (rateLimitErrorFor ep ((interval - (t' - t) + 999) / 1000)).code =
        .str "rate_limit_exceeded" ∧
      (rateLimitErrorFor ep ((interval - (t' - t) + 999) / 1000)).status =
        some 429) ∧
    (t + interval ≤ t' →
      ∀ e st'', checkRateLimit st' ep t' = .error (e, st'') →
        e.code ≠ .str "rate_limit_exceeded") := by
  have hlast : st'.rateLimitMap ep = some t :=
    checkRateLimit_ok_last st st' ep t hsucc
  have hgetD : (RATE_LIMITS_MS ep).getD 1000 = interval := by
    rw [hconf]; rfl
  constructor
  · intro hwin
    refine ⟨?_, by omega, rfl, rfl⟩
    have := checkRateLimit_rate_throw st' ep t' t hlast (by omega) (by omega)
    rwa [hgetD] at this
  · intro hsp e st'' herr
    have hre : rateErrorOf st' ep t' = none :=
      rateErrorOf_none_of_spaced st' ep t' t hlast (by omega)
    rw [checkRateLimit, hre] at herr
    have := checkDailyLimit_error_code st' st'' ep t' e herr
    rw [this]
    intro hcontra
    exact absurd (ECode.str.inj hcontra) (by decide)

theorem rate_interval_enforced_witness :
    checkRateLimit c1After "tweets/create" 100050 =
      .error (rateLimitErrorFor "tweets/create" 60, c1After) :=
  ((rate_interval_enforced "tweets/create" 60000 rfl emptyState c1After
    100000 100050 (by decide) (by decide) rfl).1 (by decide)).1

/-! ### Sequences of `checkRateLimit` calls (for the daily ceiling) -/

theorem runCalls_append (ep : String) (st : RateState) (xs ys : List Nat) :
    runCalls ep st (xs ++ ys) =
      match runCalls ep st xs with
      | .ok st' => runCalls ep st' ys
      | .error e => .error e := by
  induction xs generalizing st with
  | nil => rfl
  | cons t ts ih =>
    simp only [List.cons_append, runCalls]
    cases checkRateLimit st ep t with
    | ok st' => exact ih st'
    | error e => rfl

theorem spacedTimes_succ (t0 d k : Nat) :
    spacedTimes t0 d (k + 1) = spacedTimes t0 d k ++ [t0 + k * d] := by
  simp [spacedTimes, List.range_succ]

theorem runCalls_single_ok (ep : String) (st st' : RateState) (t : Nat)
    (h : checkRateLimit st ep t = .ok st') : runCalls ep st [t] = .ok st' := by
  simp only [runCalls, h]

theorem runCalls_snoc_ok (ep : String) (st st1 st2 : RateState) (xs : List Nat)
    (t : Nat) (h1 : runCalls ep st xs = .ok st1)
    (h2 : checkRateLimit st1 ep t = .ok st2) :
    runCalls ep st (xs ++ [t]) = .ok st2 := by
  rw [runCalls_append, h1]
  exact runCalls_single_ok ep st1 st2 t h2

/-- Invariant for evenly spaced calls on a daily-limited key: after `k + 1`
calls (`k ≤ 16`) the counter holds `k + 1` and the reset time is 24h after
the first call. -/
theorem spaced_calls_ok (ep : String) (t0 d : Nat)
    (hdl : DAILY_LIMITS ep = some 17) (hrl : RATE_LIMITS_MS ep = some 60000)
    (h0 : 0 < t0) (hd : 60000 ≤ d) (hdb : 16 * d + 60000 ≤ DAY_MS)
    (k : Nat) (hk : k ≤ 16) :
    ∃ st, runCalls ep emptyState (spacedTimes t0 d (k + 1)) = .ok st ∧
      st.rateLimitMap ep = some (t0 + k * d) ∧
      st.dailyLimits ep = some ⟨k + 1, t0 + DAY_MS⟩ := by
  have hgetD : (RATE_LIMITS_MS ep).getD 1000 = 60000 := by rw [hrl]; rfl
  induction k with
  | zero =>
    have hlist : spacedTimes t0 d (0 + 1) = [t0] := by
      simp [spacedTimes, List.range_succ]
    have hstep : checkRateLimit emptyState ep t0 =
        .ok ((emptyState.setDaily ep (some ⟨1, t0 + DAY_MS⟩)).setRate ep t0) := by
      rw [checkRateLimit, rateErrorOf_none_of_empty emptyState ep t0 rfl,
        checkDailyLimit_fresh emptyState ep t0 17 hdl rfl]
    exact ⟨_, by rw [hlist]; exact runCalls_single_ok ep emptyState _ t0 hstep,
      by simp, by simp⟩
  | succ n ih =>
    obtain ⟨st, hrun, hrate, hdaily⟩ := ih (by omega)
    have hmul : (n + 1) * d = n * d + d := by ring
    have hmul16 : (n + 1) * d ≤ 16 * d :=
      Nat.mul_le_mul_right d (by omega)
    have hstep : checkRateLimit st ep (t0 + (n + 1) * d) =
        .ok ((st.setDaily ep (some ⟨n + 1 + 1, t0 + DAY_MS⟩)).setRate ep
          (t0 + (n + 1) * d)) := by
      rw [checkRateLimit,
        rateErrorOf_none_of_spaced st ep (t0 + (n + 1) * d) (t0 + n * d) hrate
          (by rw [hgetD]; omega),
        checkDailyLimit_increment st ep (t0 + (n + 1) * d) 17 (n + 1)
          (t0 + DAY_MS) hdl hdaily (by omega) (by omega)]
    refine ⟨(st.setDaily ep (some ⟨n + 1 + 1, t0 + DAY_MS⟩)).setRate ep
      (t0 + (n + 1) * d), ?_, by simp, by simp⟩
    rw [spacedTimes_succ]
    exact runCalls_snoc_ok ep emptyState st _ (spacedTimes t0 d (n + 1))
      (t0 + (n + 1) * d) hrun hstep

/-- **C2** (amended): for each endpoint key with daily ceiling 17 and 60s
interval (the three mutating keys), 17 sufficiently spaced calls starting
from no counter all succeed; an 18th spaced call strictly before the
counter's reset time throws the daily-limit error naming the hours until
reset, ceiling-rounded; and a call strictly after the reset time discards
the stale counter and behaves as call #1, initializing a fresh counter
with count 1 and reset time 24 hours after that call.  (At exactly the
reset time the counter is still live — see the counterexample.) -/
theorem daily_ceiling_17 (ep : String) (t0 d t18 t19 : Nat)
    (hdl : DAILY_LIMITS ep = some 17) (hrl : RATE_LIMITS_MS ep = some 60000)
    (h0 : 0 < t0) (hd : 60000 ≤ d) (hdb : 16 * d + 60000 ≤ DAY_MS)
    (h18a : t0 + 16 * d + 60000 ≤ t18) (h18b : t18 < t0 + DAY_MS)
    (h19 : t0 + DAY_MS < t19) :
    ∃ st, runCalls ep emptyState (spacedTimes t0 d 17) = .ok st ∧
      st.dailyLimits ep = some ⟨17, t0 + DAY_MS⟩ ∧
      checkRateLimit st ep t18 =
        .error (dailyLimitErrorFor 17
          ((t0 + DAY_MS - t18 + (3600000 - 1)) / 3600000), st) ∧
      ∃ st', checkRateLimit st ep t19 = .ok st' ∧
        st'.dailyLimits ep = some ⟨1, t19 + DAY_MS⟩ ∧
        st'.rateLimitMap ep = some t19 := by
  have hgetD : (RATE_LIMITS_MS ep).getD 1000 = 60000 := by rw [hrl]; rfl
  obtain ⟨st, hrun, hrate, hdaily⟩ :=
    spaced_calls_ok ep t0 d hdl hrl h0 hd hdb 16 le_rfl
  refine ⟨st, hrun, hdaily, ?_, ?_⟩
  · rw [checkRateLimit,
      rateErrorOf_none_of_spaced st ep t18 (t0 + 16 * d) hrate
        (by rw [hgetD]; omega),
      checkDailyLimit_throw st ep t18 17 17 (t0 + DAY_MS) hdl hdaily
        (by omega) le_rfl]
  · refine ⟨((st.setDaily ep none).setDaily ep
      (some ⟨1, t19 + DAY_MS⟩)).setRate ep t19, ?_, by simp, by simp⟩
    rw [checkRateLimit,
      rateErrorOf_none_of_spaced st ep t19 (t0 + 16 * d) hrate
        (by rw [hgetD]; omega),
      checkDailyLimit_stale st ep t19 17 17 (t0 + DAY_MS) hdl hdaily h19]

theorem daily_ceiling_17_witness :
    ∃ st, runCalls "tweets/create" emptyState (spacedTimes 1 60000 17) = .ok st ∧
      st.dailyLimits "tweets/create" = some ⟨17, 1 + DAY_MS⟩ ∧
      checkRateLimit st "tweets/create" 1020001 =
        .error (dailyLimitErrorFor 17
          ((1 + DAY_MS - 1020001 + (3600000 - 1)) / 3600000), st) ∧
      ∃ st', checkRateLimit st "tweets/create" 86400002 = .ok st' ∧
        st'.dailyLimits "tweets/create" = some ⟨1, 86400002 + DAY_MS⟩ ∧
        st'.rateLimitMap "tweets/create" = some 86400002 :=
  daily_ceiling_17 "tweets/create" 1 60000 1020001 86400002 rfl rfl
    (by decide) (by decide) (by decide) (by decide) (by decide) (by decide)

/-- Counterexample to **C2** as stated: after 17 spaced calls starting at
time 1, a call at exactly the reset time `1 + DAY_MS` does NOT behave as
call #1 — the stale check is strict (`resetAt < now`), so the counter is
still live and the daily-limit error is thrown. -/
theorem daily_reset_boundary_counterexample :
    resultErrCode (runCalls "tweets/create" emptyState
      (spacedTimes 1 60000 17 ++ [1 + DAY_MS])) =
      some (.str "daily_limit_exceeded") := rfl

/-! ### Delete fallback policy (C3) -/

theorem truthyStr_iff (o : Option String) :
    truthyStr o = true ↔ ∃ s, o = some s ∧ s ≠ "" := by
  cases o <;> simp [truthyStr]

/-- **C3**: past the quota check, if the v2 delete fails with exactly code
500, then under oauth1 the client invokes the legacy v1.1 endpoint once
and returns `deleted = true` exactly when the legacy response carries a
non-empty identifier, while under oauth2 it throws the
`delete_unavailable` incompatibility error without invoking the legacy
endpoint; a v2 failure with any other code propagates (through the error
funnel) without triggering the fallback. -/
theorem deleteTweet_fallback_policy (st st' : RateState) (now : Nat)
    (v2Error : Exn) (v1Outcome : Except Exn (Option String))
    (hok : checkRateLimit st "tweets/delete" now = .ok st') :
    (v2Error.jsCode = some (.num 500) →
      (deleteTweet st now .oauth1 (.error v2Error) v1Outcome).2.1 = true ∧
      (∀ id_str, v1Outcome = .ok id_str →
        (deleteTweet st now .oauth1 (.error v2Error) v1Outcome).1 =
          .ok (truthyStr id_str) ∧
        (truthyStr id_str = true ↔ ∃ s, id_str = some s ∧ s ≠ "")) ∧
      (deleteTweet st now .oauth2 (.error v2Error) v1Outcome).1 =
        .error deleteUnavailableError ∧
      deleteUnavailableError.code = .str "delete_unavailable" ∧
      (deleteTweet st now .oauth2 (.error v2Error) v1Outcome).2.1 = false) ∧
    (v2Error.jsCode ≠ some (.num 500) →
      ∀ a : AuthType,
        (deleteTweet st now a (.error v2Error) v1Outcome).1 =
          .error (handleApiError v2Error) ∧
        (deleteTweet st now a (.error v2Error) v1Outcome).2.1 = false) := by
  constructor
  · intro h500
    refine ⟨?_, ?_, ?_, rfl, ?_⟩
    · cases v1Outcome <;> simp [deleteTweet, hok, h500]
    · intro id_str hv1
      subst hv1
      exact ⟨by simp [deleteTweet, hok, h500], truthyStr_iff id_str⟩
    · simp [deleteTweet, hok, h500, handleApiError]
    · simp [deleteTweet, hok, h500]
  · intro hne a
    constructor <;> simp [deleteTweet, hok, hne]

theorem deleteTweet_fallback_policy_witness :
    (deleteTweet emptyState 5 .oauth1
      (.error (.api "Internal Server Error" (some (.num 500)) (some 500)))
      (.ok (some "123"))).1 = .ok true := by
  have h := deleteTweet_fallback_policy emptyState
    ((emptyState.setDaily "tweets/delete" (some ⟨1, 5 + DAY_MS⟩)).setRate
      "tweets/delete" 5)
    5 (.api "Internal Server Error" (some (.num 500)) (some 500))
    (.ok (some "123")) rfl
  exact (((h.1 (by decide)).2.1 (some "123") rfl).1).trans rfl

/-! ### Error mapping (C7) -/

/-- **C7** (amended): `handleApiError` is the single error-mapping exit —
an already-tagged `TwitterError` is rethrown unchanged; an exception with
a truthy machine-readable code is wrapped preserving code and status; any
other exception becomes the generic `internal_error` with status 500 —
except that the media-upload operation may first rewrite an error whose
message matches the scope/403 heuristic into the `media_upload_forbidden`
error; every error leaving `uploadMedia` is either that rewrite or the
funnel applied to a tagged error. -/
theorem handleApiError_single_exit :
    (∀ te, handleApiError (.twitter te) = te) ∧
    (∀ m c s, ECode.truthy c = true →
      handleApiError (.api m (some c) s) =
        ⟨if m ≠ "" then m else "Twitter API error", c, s⟩) ∧
    (∀ m c s, ECode.truthy c = false →
      handleApiError (.api m (some c) s) = internalError) ∧
    (∀ m s, handleApiError (.api m none s) = internalError) ∧
    (handleApiError .other = internalError) ∧
    (internalError.code = .str "internal_error" ∧
      internalError.status = some 500) ∧
    (∀ clock uploads s idx buf mime e s',
      uploadMediaM clock uploads s idx buf mime = .error (e, s') →
        e = mediaUploadForbiddenError ∨
          ∃ e0, e = handleApiError (.twitter e0)) := by
  refine ⟨fun te => rfl, ?_, ?_, fun m s => rfl, rfl, ⟨rfl, rfl⟩, ?_⟩
  · intro m c s hc
    simp [handleApiError, hc]
  · intro m c s hc
    simp [handleApiError, hc]
  · intro clock uploads s idx buf mime e s' h
    simp only [uploadMediaM] at h
    split at h
    · exact Except.noConfusion h
    · split at h
      · cases h
        exact Or.inl rfl
      · cases h
        exact Or.inr ⟨_, rfl⟩

theorem handleApiError_single_exit_witness :
    handleApiError (.api "boom" (some (.num 404)) (some 404)) =
      ⟨"boom", .num 404, some 404⟩ :=
  (handleApiError_single_exit.2.1 "boom" (.num 404) (some 404)
    (by decide)).trans (by decide)

/-- On a buffer over the decoded-size ceiling, `uploadMedia` raises the
tagged `file_too_large` error inside its try block and the catch heuristic
then decides what the caller observes. -/
theorem uploadMediaM_oversize (clock : Nat → Nat) (uploads : Nat → String)
    (s : PTMState) (idx : Nat) (buf : List Nat) (mime : String)
    (h : buf.length > MAX_MEDIA_FILE_SIZE) :
    uploadMediaM clock uploads s idx buf mime =
      if containsSub (fileTooLargeError buf.length).message "scope" ||
          containsSub (fileTooLargeError buf.length).message "403" then
        .error (mediaUploadForbiddenError, s)
      else
        .error (handleApiError (.twitter (fileTooLargeError buf.length)), s) := by
  simp only [uploadMediaM, if_pos h]

/-- Counterexample to **C7** as stated: a public operation (`uploadMedia`)
does not always rethrow an already-tagged domain error unchanged.  On a
403 MiB buffer the tagged `file_too_large` error is raised inside the try
block, but its message contains the substring `403`, so the catch
heuristic replaces it with `media_upload_forbidden` — the caller observes
a different error than the tagged one that was thrown. -/
theorem upload_error_rewrite_counterexample :
    uploadMediaM clock61 uploadsDet s0PTM 0 bigBuf "image/png" =
      .error (mediaUploadForbiddenError, s0PTM) ∧
    bigBuf.length > MAX_MEDIA_FILE_SIZE ∧
    (fileTooLargeError bigBuf.length).code = .str "file_too_large" ∧
    mediaUploadForbiddenError ≠ fileTooLargeError bigBuf.length := by
  have hlen : bigBuf.length = 422576128 := by
    rw [bigBuf, List.length_replicate]
  have hgt : bigBuf.length > MAX_MEDIA_FILE_SIZE := by rw [hlen]; decide
  refine ⟨?_, hgt, rfl, by rw [hlen]; decide⟩
  rw [uploadMediaM_oversize clock61 uploadsDet s0PTM 0 bigBuf "image/png" hgt,
    hlen]
  have hc : (containsSub (fileTooLargeError 422576128).message "scope" ||
      containsSub (fileTooLargeError 422576128).message "403") = true := by
    decide
  rw [if_pos hc]

/-! ### Credential provider (C8) -/

/-- **C8** (amended): `createTwitterClient` succeeds exactly when the
active scheme's credential branch is fully populated (scheme2: non-empty
bearer token; scheme1: all four credential strings non-empty); otherwise
it fails with the branch's fixed descriptive error naming all of that
scheme's required fields (the same message whichever subset is missing).
The handle it builds is a pure value: no network call is made. -/
theorem credential_provider_validation (c : Config) :
    ((createTwitterClient c).isOk = true ↔
      (if c.authType = .oauth2 then truthyStr c.oauth2AccessToken = true
       else (truthyStr c.apiKey = true ∧ truthyStr c.apiSecretKey = true ∧
         truthyStr c.accessToken = true ∧
         truthyStr c.accessTokenSecret = true))) ∧
    (c.authType = .oauth2 → truthyStr c.oauth2AccessToken = false →
      createTwitterClient c =
        .error "OAuth 2.0 access token is required when using OAuth 2.0 authentication. Please check your OAUTH2_ACCESS_TOKEN environment variable.") ∧
    (c.authType = .oauth1 →
      ¬(truthyStr c.apiKey = true ∧ truthyStr c.apiSecretKey = true ∧
        truthyStr c.accessToken = true ∧
        truthyStr c.accessTokenSecret = true) →
      createTwitterClient c =
        .error "OAuth 1.0a requires all four credentials: API_KEY, API_SECRET_KEY, ACCESS_TOKEN, and ACCESS_TOKEN_SECRET. Please check your environment variables.") := by
  refine ⟨?_, ?_, ?_⟩
  · cases hauth : c.authType
    · cases h1 : truthyStr c.apiKey <;> cases h2 : truthyStr c.apiSecretKey <;>
        cases h3 : truthyStr c.accessToken <;>
        cases h4 : truthyStr c.accessTokenSecret <;>
        simp [createTwitterClient, hauth, h1, h2, h3, h4, Except.isOk,
          Except.toBool]
    · cases htok : truthyStr c.oauth2AccessToken <;>
        simp [createTwitterClient, hauth, htok, Except.isOk, Except.toBool]
  · intro hauth htok
    simp [createTwitterClient, hauth, htok]
  · intro hauth hmiss
    cases h1 : truthyStr c.apiKey <;> cases h2 : truthyStr c.apiSecretKey <;>
      cases h3 : truthyStr c.accessToken <;>
      cases h4 : truthyStr c.accessTokenSecret <;>
      simp_all [createTwitterClient, hauth]

/-- A scheme2 configuration missing the bearer token. -/
def cfgOauth2NoToken : Config :=
  ⟨none, none, none, none, .oauth2, none, none, none, none⟩

theorem credential_provider_validation_witness :
    createTwitterClient cfgOauth2NoToken =
      .error "OAuth 2.0 access token is required when using OAuth 2.0 authentication. Please check your OAUTH2_ACCESS_TOKEN environment variable." :=
  (credential_provider_validation cfgOauth2NoToken).2.1 rfl rfl

/-- Counterexample to **C8** as stated: the failure message does not
identify exactly which required fields are missing — a configuration
missing only the API key and one missing only the access-token secret
produce the identical error message. -/
theorem credential_error_not_field_specific_counterexample :
    createTwitterClient cfgMissingApiKey =
      .error "OAuth 1.0a requires all four credentials: API_KEY, API_SECRET_KEY, ACCESS_TOKEN, and ACCESS_TOKEN_SECRET. Please check your environment variables." ∧
    createTwitterClient cfgMissingTokenSecret =
      .error "OAuth 1.0a requires all four credentials: API_KEY, API_SECRET_KEY, ACCESS_TOKEN, and ACCESS_TOKEN_SECRET. Please check your environment variables." ∧
    cfgMissingApiKey ≠ cfgMissingTokenSecret :=
  ⟨rfl, rfl, by decide⟩

/-! ### OAuth2 credential refresher (C9) -/

theorem shouldRefreshToken_iff (e : Option Int) (rt : Option String)
    (now : Int) :
    shouldRefreshToken e rt now = true ↔
      ∃ exp r, e = some exp ∧ rt = some r ∧ r ≠ "" ∧
        exp - now < 5 * 60 * 1000 := by
  cases e <;> cases rt <;> simp [shouldRefreshToken, truthyStr]

/-- **C9**: under scheme2 the refresher performs a token refresh exactly
when a refresh token is present (non-empty) and the recorded expiry is
less than 5 minutes away — no refresh when either the expiry or the
refresh token is absent; and a refresh attempted without client id or
client secret, or answered with a non-success response, fails with a
fatal error (no retry). -/
theorem oauth2_refresh_policy (tokenExpiresAt : Option Int) (c : Config)
    (resp : RefreshResponse) (now : Int) :
    ((getClient tokenExpiresAt c resp now).1 = true ↔
      (∃ exp rt, tokenExpiresAt = some exp ∧ c.oauth2RefreshToken = some rt ∧
        rt ≠ "" ∧ exp - now < 5 * 60 * 1000)) ∧
    (truthyStr c.oauth2RefreshToken = true →
      (truthyStr c.oauth2ClientId = false ∨
        truthyStr c.oauth2ClientSecret = false) →
      refreshAccessToken c resp now =
        .error "Client ID and secret required for token refresh") ∧
    (truthyStr c.oauth2RefreshToken = true →
      truthyStr c.oauth2ClientId = true →
      truthyStr c.oauth2ClientSecret = true →
      resp.ok = false →
      refreshAccessToken c resp now =
        .error ("Failed to refresh OAuth 2.0 token: Token refresh failed: " ++
          resp.errorText)) := by
  refine ⟨?_, ?_, ?_⟩
  · have hfst : (getClient tokenExpiresAt c resp now).1 =
        shouldRefreshToken tokenExpiresAt c.oauth2RefreshToken now := by
      by_cases hs : shouldRefreshToken tokenExpiresAt c.oauth2RefreshToken now <;>
        simp [getClient, hs]
    rw [hfst]
    exact shouldRefreshToken_iff tokenExpiresAt c.oauth2RefreshToken now
  · intro hrt hmiss
    rcases hmiss with h | h <;>
      simp [refreshAccessToken, hrt, h]
  · intro hrt hid hsec hok
    simp [refreshAccessToken, hrt, hid, hsec, hok]

/-- A scheme2 configuration with full refresh credentials. -/
def c9Config : Config :=
  ⟨none, none, none, none, .oauth2, some "cid", some "csec", some "tok",
    some "rt"⟩

/-- A failed token-refresh exchange. -/
def c9Resp : RefreshResponse := ⟨false, "invalid_grant", "", none, 0⟩

theorem oauth2_refresh_policy_witness :
    refreshAccessToken c9Config c9Resp 0 =
      .error ("Failed to refresh OAuth 2.0 token: Token refresh failed: " ++
        "invalid_grant") :=
  (oauth2_refresh_policy (some 100000) c9Config c9Resp 0).2.2 rfl rfl rfl rfl

/-! ### Base64 codec lemmas -/

/-- Padded base64 output length is always a multiple of 4. -/
theorem encodeGroups_length_mod4 : ∀ l : List Nat,
    (encodeGroups l).length % 4 = 0
  | b1 :: b2 :: b3 :: rest => by
    have ih := encodeGroups_length_mod4 rest
    simp only [encodeGroups, List.length_cons]
    omega
  | [b1, b2] => by simp [encodeGroups]
  | [b1] => by simp [encodeGroups]
  | [] => by simp [encodeGroups]

/-- Exact length of the padded base64 encoding. -/
theorem encodeGroups_length : ∀ l : List Nat,
    (encodeGroups l).length = 4 * ((l.length + 2) / 3)
  | b1 :: b2 :: b3 :: rest => by
    have ih := encodeGroups_length rest
    simp only [encodeGroups, List.length_cons]
    omega
  | [b1, b2] => by simp [encodeGroups]
  | [b1] => by simp [encodeGroups]
  | [] => by simp [encodeGroups]

/-- Decoding yields at most 3 bytes per 4 sextets. -/
theorem four_mul_sextetsToBytes_le : ∀ l : List Nat,
    4 * (sextetsToBytes l).length ≤ 3 * l.length
  | a :: b :: c :: d :: rest => by
    have ih := four_mul_sextetsToBytes_le rest
    simp only [sextetsToBytes, List.length_cons]
    omega
  | [a, b, c] => by simp [sextetsToBytes]
  | [a, b] => by simp [sextetsToBytes]
  | [a] => by simp [sextetsToBytes]
  | [] => by simp [sextetsToBytes]

/-- Decoded byte count is at most three quarters of the encoded length. -/
theorem four_mul_decode_le (s : String) :
    4 * (decodeBase64 s).length ≤ 3 * s.length := by
  have h1 := four_mul_sextetsToBytes_le (toSextets s)
  have h2 : (toSextets s).length ≤ s.length := by
    have h := List.length_filterMap_le b64Index s.toList
    have hsl : s.toList.length = s.length := rfl
    have hts : (toSextets s).length =
        (List.filterMap b64Index s.toList).length := rfl
    omega
  rw [decodeBase64]
  omega

/-- The alphabet lookup inverts the alphabet index. -/
theorem b64Index_getD : ∀ v : Nat, v < 64 →
    b64Index (base64Chars.getD v 'A') = some v := by decide

theorem b64Index_pad : b64Index '=' = none := by decide

/-- Node's decode inverts the encode on genuine byte lists. -/
theorem decodeList_encodeGroups : ∀ l : List Nat, (∀ b ∈ l, b < 256) →
    sextetsToBytes ((encodeGroups l).filterMap b64Index) = l
  | [], _ => rfl
  | [b1], h => by
    have hb1 : b1 < 256 := h b1 (by simp)
    simp only [encodeGroups, List.filterMap_cons,
      b64Index_getD (b1 / 4) (by omega),
      b64Index_getD ((b1 % 4) * 16) (by omega), b64Index_pad]
    simp only [sextetsToBytes]
    congr 1
    omega
  | [b1, b2], h => by
    have hb1 : b1 < 256 := h b1 (by simp)
    have hb2 : b2 < 256 := h b2 (by simp)
    simp only [encodeGroups, List.filterMap_cons,
      b64Index_getD (b1 / 4) (by omega),
      b64Index_getD ((b1 % 4) * 16 + b2 / 16) (by omega),
      b64Index_getD ((b2 % 16) * 4) (by omega), b64Index_pad]
    simp only [sextetsToBytes]
    congr 1
    · omega
    · congr 1
      omega
  | b1 :: b2 :: b3 :: rest, h => by
    have hb1 : b1 < 256 := h b1 (by simp)
    have hb2 : b2 < 256 := h b2 (by simp)
    have hb3 : b3 < 256 := h b3 (by simp)
    have ih := decodeList_encodeGroups rest (fun b hb => h b (by simp [hb]))
    simp only [encodeGroups, List.filterMap_cons,
      b64Index_getD (b1 / 4) (by omega),
      b64Index_getD ((b1 % 4) * 16 + b2 / 16) (by omega),
      b64Index_getD ((b2 % 16) * 4 + b3 / 64) (by omega),
      b64Index_getD (b3 % 64) (by omega)]
    simp only [sextetsToBytes, ih]
    congr 1
    · omega
    · congr 1
      · omega
      · congr 1
        omega

/-- `Buffer.from(buffer.toString('base64'), 'base64')` is the identity on
byte lists. -/
theorem decode_encode (l : List Nat) (h : ∀ b ∈ l, b < 256) :
    decodeBase64 (encodeBase64 l) = l :=
  decodeList_encodeGroups l h

/-! ### Media size checks (C5) and round-trip rejection (C4) -/

/-- Within `postTweetWithMedia` the decoded size is at most 11 MiB, so the
`file_too_large` message never matches the catch heuristic. -/
theorem fileTooLarge_message_no_heuristic (n : Nat)
    (h5 : MAX_MEDIA_FILE_SIZE < n) (h12 : n ≤ 11796480) :
    (containsSub (fileTooLargeError n).message "scope" ||
     containsSub (fileTooLargeError n).message "403") = false := by
  have hl : 5 ≤ mbRound n := by
    unfold mbRound MAX_MEDIA_FILE_SIZE at *
    omega
  have hu : mbRound n ≤ 11 := by
    unfold mbRound at *
    omega
  simp only [fileTooLargeError]
  set m := mbRound n with hmdef
  have hcase : m = 5 ∨ m = 6 ∨ m = 7 ∨ m = 8 ∨ m = 9 ∨ m = 10 ∨ m = 11 := by
    omega
  rcases hcase with h | h | h | h | h | h | h <;> rw [h] <;> decide

/-- Rejection of an item over the encoded ceiling, before anything else. -/
theorem processItems_oversize (clock : Nat → Nat) (uploads : Nat → String)
    (s : PTMState) (i : Nat) (item : MediaItem) (rest : List MediaItem)
    (h : item.data.length > MAX_BASE64_SIZE) :
    processItems clock uploads s i (item :: rest) =
      .error (base64TooLargeError, s) := by
  simp only [processItems]
  rw [if_pos h]

/-- Rejection of an item failing the round-trip, right after the decode. -/
theorem processItems_invalid (clock : Nat → Nat) (uploads : Nat → String)
    (s : PTMState) (i : Nat) (item : MediaItem) (rest : List MediaItem)
    (hsize : item.data.length ≤ MAX_BASE64_SIZE)
    (hrt : encodeBase64 (decodeBase64 item.data) ≠ item.data) :
    processItems clock uploads s i (item :: rest) =
      .error (invalidBase64Error, s.addEvent (.decodeAttempt i)) := by
  simp only [processItems]
  rw [if_neg (by omega), if_pos hrt]

/-- Rejection of a valid item whose decoded bytes exceed the 5 MiB
ceiling, before the upload quota check and network call. -/
theorem processItems_decoded_too_large (clock : Nat → Nat)
    (uploads : Nat → String) (s : PTMState) (i : Nat) (item : MediaItem)
    (rest : List MediaItem)
    (hsize : item.data.length ≤ MAX_BASE64_SIZE)
    (hrt : encodeBase64 (decodeBase64 item.data) = item.data)
    (hdlen : (decodeBase64 item.data).length > MAX_MEDIA_FILE_SIZE) :
    processItems clock uploads s i (item :: rest) =
      .error (fileTooLargeError (decodeBase64 item.data).length,
        s.addEvent (.decodeAttempt i)) := by
  have h12 : (decodeBase64 item.data).length ≤ 11796480 := by
    have h1 := four_mul_decode_le item.data
    have h2 : item.data.length ≤ 15728640 := hsize
    omega
  simp only [processItems]
  rw [if_neg (by omega), if_neg (not_not_intro hrt),
    uploadMediaM_oversize clock uploads (s.addEvent (.decodeAttempt i)) i
      (decodeBase64 item.data) item.media_type hdlen,
    if_neg (by rw [fileTooLarge_message_no_heuristic
      (decodeBase64 item.data).length hdlen h12]; exact Bool.false_ne_true)]
  rfl

/-- **C5**: media size checks fire in order and before any remote effect:
an item whose encoded text exceeds 15 MiB is rejected with the
`base64_too_large` error before any decode attempt (state and trace
untouched), and an item within that bound whose decoded bytes exceed
5 MiB is rejected with the `file_too_large` error (restating the 5 MB
limit in its message) after only the decode — no upload-quota check and
no upload network call happen; the two errors are distinct. -/
theorem media_size_checks_order (clock : Nat → Nat) (uploads : Nat → String)
    (s : PTMState) (i : Nat) (item : MediaItem) (rest : List MediaItem) :
    (item.data.length > MAX_BASE64_SIZE →
      processItems clock uploads s i (item :: rest) =
        .error (base64TooLargeError, s)) ∧
    (item.data.length ≤ MAX_BASE64_SIZE →
      encodeBase64 (decodeBase64 item.data) = item.data →
      (decodeBase64 item.data).length > MAX_MEDIA_FILE_SIZE →
      processItems clock uploads s i (item :: rest) =
        .error (fileTooLargeError (decodeBase64 item.data).length,
          s.addEvent (.decodeAttempt i))) ∧
    base64TooLargeError.code = .str "base64_too_large" ∧
    (∀ n, (fileTooLargeError n).code = .str "file_too_large") ∧
    base64TooLargeError.code ≠
      (fileTooLargeError (decodeBase64 item.data).length).code := by
  refine ⟨?_, ?_, rfl, fun n => rfl, ?_⟩
  · exact processItems_oversize clock uploads s i item rest
  · exact processItems_decoded_too_large clock uploads s i item rest
  · show ECode.str "base64_too_large" ≠ ECode.str "file_too_large"
    decide

theorem media_size_checks_order_witness :
    processItems clock61 uploadsDet s0PTM 0 [c5Item] =
      .error (fileTooLargeError (decodeBase64 c5Item.data).length,
        s0PTM.addEvent (.decodeAttempt 0)) := by
  have hbytes : ∀ b ∈ c5Bytes, b < 256 := by
    intro b hb
    rw [List.eq_of_mem_replicate hb]
    decide
  have hround : decodeBase64 c5Item.data = c5Bytes := decode_encode c5Bytes hbytes
  have hblen : c5Bytes.length = 5242881 := by
    rw [c5Bytes, List.length_replicate]
    rfl
  have hdatalen : c5Item.data.length = 6990508 := by
    show (encodeGroups c5Bytes).length = 6990508
    rw [encodeGroups_length, hblen]
  exact (media_size_checks_order clock61 uploadsDet s0PTM 0 c5Item []).2.1
    (by rw [hdatalen]; decide)
    (by rw [hround]; rfl)
    (by rw [hround, hblen]; decide)

/-- **C4** (amended): for every media item passed to `postTweetWithMedia`
whose encoded text is within the 15 MiB ceiling, if re-encoding the
decoded bytes does not reproduce the original encoded text exactly, the
item is rejected with the `invalid_base64` error, whatever its size within
that bound.  (An item over the ceiling is rejected earlier with
`base64_too_large` — see the counterexample.) -/
theorem invalid_base64_rejected (clock : Nat → Nat) (uploads : Nat → String)
    (s : PTMState) (i : Nat) (item : MediaItem) (rest : List MediaItem)
    (hsize : item.data.length ≤ MAX_BASE64_SIZE)
    (hrt : encodeBase64 (decodeBase64 item.data) ≠ item.data) :
    processItems clock uploads s i (item :: rest) =
      .error (invalidBase64Error, s.addEvent (.decodeAttempt i)) ∧
    invalidBase64Error.code = .str "invalid_base64" :=
  ⟨processItems_invalid clock uploads s i item rest hsize hrt, rfl⟩

theorem invalid_base64_rejected_witness :
    processItems clock61 uploadsDet s0PTM 0 [⟨"x", "image/png"⟩] =
      .error (invalidBase64Error, s0PTM.addEvent (.decodeAttempt 0)) :=
  (invalid_base64_rejected clock61 uploadsDet s0PTM 0 ⟨"x", "image/png"⟩ []
    (by decide) (by decide)).1

/-- Counterexample to **C4** as stated: the `invalid_base64` rejection
does not apply regardless of size.  This 15 MiB + 1 item fails the
round-trip (its length is not a multiple of 4, while every re-encoding
has length divisible by 4), yet it is rejected with `base64_too_large`,
not `invalid_base64`, because the size check fires before any decode. -/
theorem oversize_item_not_invalid_base64_counterexample :
    encodeBase64 (decodeBase64 c4Item.data) ≠ c4Item.data ∧
    processItems clock61 uploadsDet s0PTM 0 [c4Item] =
      .error (base64TooLargeError, s0PTM) ∧
    base64TooLargeError.code ≠ invalidBase64Error.code := by
  have hdata : c4Item.data = bigX := rfl
  have hbiglen : bigX.length = 15728641 := by
    rw [bigX]
    show (List.replicate (MAX_BASE64_SIZE + 1) 'x').length = 15728641
    rw [List.length_replicate]
    rfl
  refine ⟨?_, ?_, by decide⟩
  · intro heq
    have hmod := encodeGroups_length_mod4 (decodeBase64 c4Item.data)
    have hlen : (encodeGroups (decodeBase64 c4Item.data)).length =
        c4Item.data.length := congrArg String.length heq
    have hdl : c4Item.data.length = 15728641 := by rw [hdata, hbiglen]
    rw [hdl] at hlen
    rw [hlen] at hmod
    omega
  · exact processItems_oversize clock61 uploadsDet s0PTM 0 c4Item []
      (by rw [hdata, hbiglen]; decide)

/-! ### Pipeline shape on success (C6) -/

@[simp] theorem PTMState.addEvent_uploadsDone (s : PTMState) (e : Event) :
    (s.addEvent e).uploadsDone = s.uploadsDone := rfl

@[simp] theorem PTMState.addEvent_trace (s : PTMState) (e : Event) :
    (s.addEvent e).trace = s.trace ++ [e] := rfl

/-- Inversion of a successful `uploadMedia`: the media id comes from the
remote, one quota check and one network upload are traced, in that order. -/
theorem uploadMediaM_ok_inv (clock : Nat → Nat) (uploads : Nat → String)
    (s : PTMState) (idx : Nat) (buf : List Nat) (mime : String)
    (mid : String) (s2 : PTMState)
    (h : uploadMediaM clock uploads s idx buf mime = .ok (mid, s2)) :
    mid = uploads s.uploadsDone ∧
    s2.trace = s.trace ++ [.rateCheck "media/upload",
      .networkUpload idx (uploads s.uploadsDone)] ∧
    s2.uploadsDone = s.uploadsDone + 1 := by
  simp only [uploadMediaM] at h
  split at h
  · rename_i r heq
    injection h with h'
    subst h'
    split at heq
    · exact Except.noConfusion heq
    · split at heq
      · exact Except.noConfusion heq
      · rename_i rs' hrc
        injection heq with heq'
        cases heq'
        exact ⟨rfl, rfl, rfl⟩
  · rename_i e s' heq
    split at h <;> exact Except.noConfusion h

/-- Inversion of a successful media loop: ids are the remote's answers in
upload order, and the trace grows by the per-item event blocks. -/
theorem processItems_ok (clock : Nat → Nat) (uploads : Nat → String) :
    ∀ (items : List MediaItem) (s : PTMState) (i : Nat) (ids : List String)
      (s' : PTMState),
      processItems clock uploads s i items = .ok (ids, s') →
      ids = idsFrom uploads s.uploadsDone items.length ∧
      s'.trace = s.trace ++ itemsEvents uploads i s.uploadsDone items.length ∧
      s'.uploadsDone = s.uploadsDone + items.length := by
  intro items
  induction items with
  | nil =>
    intro s i ids s' h
    simp only [processItems] at h
    injection h with h'
    cases h'
    exact ⟨rfl, by simp [itemsEvents, idsFrom], by simp⟩
  | cons item rest ih =>
    intro s i ids s' h
    simp only [processItems] at h
    split at h
    · exact Except.noConfusion h
    · split at h
      · exact Except.noConfusion h
      · split at h
        · exact Except.noConfusion h
        · rename_i mid s2 hU
          split at h
          · rename_i ids2 s3 hR
            injection h with h'
            cases h'
            obtain ⟨hmid, htr2, hud2⟩ := uploadMediaM_ok_inv clock uploads
              (s.addEvent (.decodeAttempt i)) i (decodeBase64 item.data)
              item.media_type mid s2 hU
            simp only [PTMState.addEvent_uploadsDone, PTMState.addEvent_trace]
              at hmid htr2 hud2
            obtain ⟨hids, htr3, hud3⟩ := ih s2 (i + 1) ids2 _ hR
            refine ⟨?_, ?_, ?_⟩
            · rw [hids, hud2, hmid]
              simp [idsFrom]
            · rw [htr3, htr2, hud2]
              simp [itemsEvents, List.append_assoc]
            · rw [hud3, hud2]
              simp only [List.length_cons]
              omega
          · exact Except.noConfusion h

theorem idsFrom_eq (uploads : Nat → String) : ∀ (n u : Nat),
    idsFrom uploads u n = (List.range n).map (fun j => uploads (u + j))
  | 0, _ => rfl
  | n + 1, u => by
    show uploads u :: idsFrom uploads (u + 1) n = _
    rw [List.range_succ_eq_map, List.map_cons, List.map_map,
      idsFrom_eq uploads n (u + 1)]
    congr 1
    apply List.map_congr_left
    intro j _
    show uploads (u + 1 + j) = uploads (u + (j + 1))
    congr 1
    omega

theorem count_create_itemsEvents (uploads : Nat → String) : ∀ (n i u : Nat),
    (itemsEvents uploads i u n).count (Event.rateCheck "tweets/create") = 0
  | 0, _, _ => rfl
  | n + 1, i, u => by
    have ih := count_create_itemsEvents uploads n (i + 1) (u + 1)
    simp [itemsEvents, List.count_cons, ih]

/-- **C6**: on every successful `postTweetWithMedia` run with a non-empty
media list, the create-endpoint quota is checked exactly once, before any
per-item upload; each item is decoded, quota-checked on the upload key and
uploaded, in input order; and the dispatched request carries the resulting
media identifiers in the same order as the input items (`j`-th id is the
remote's answer to the `j`-th upload). -/
theorem post_with_media_pipeline (clock : Nat → Nat) (uploads : Nat → String)
    (rs0 : RateState) (text : String) (reply : Option String)
    (items : List MediaItem) (resp : PostedTweet)
    (hne : items ≠ [])
    (hok : (postTweetWithMedia clock uploads rs0 text reply items
      resp).isOk = true) :
    runTrace (postTweetWithMedia clock uploads rs0 text reply items resp) =
      .rateCheck "tweets/create" ::
        (itemsEvents uploads 0 0 items.length ++
          [.dispatchTweet (some (idsFrom uploads 0 items.length))]) ∧
    idsFrom uploads 0 items.length = (List.range items.length).map uploads ∧
    (runTrace (postTweetWithMedia clock uploads rs0 text reply items
      resp)).count (.rateCheck "tweets/create") = 1 := by
  have hmain : runTrace (postTweetWithMedia clock uploads rs0 text reply
      items resp) =
      .rateCheck "tweets/create" ::
        (itemsEvents uploads 0 0 items.length ++
          [.dispatchTweet (some (idsFrom uploads 0 items.length))]) := by
    rcases hres : postTweetWithMedia clock uploads rs0 text reply items resp
      with ⟨e, sE⟩ | ⟨pt, sF⟩
    · rw [hres] at hok
      exact absurd hok (by simp [Except.isOk, Except.toBool])
    · simp only [postTweetWithMedia] at hres
      split at hres
      · exact Except.noConfusion hres
      · rename_i rs' hrc
        split at hres
        · split at hres
          · exact Except.noConfusion hres
          · rename_i mediaIds s2 hP
            injection hres with h'
            cases h'
            obtain ⟨hids, htr, _⟩ := processItems_ok clock uploads items
              ⟨rs', 1, 0, [.rateCheck "tweets/create"]⟩ 0 mediaIds s2 hP
            simp only [runTrace, PTMState.addEvent_trace]
            rw [htr, hids]
            simp
        · rename_i hlen0
          exact absurd (List.eq_nil_of_length_eq_zero (by omega)) hne
  refine ⟨hmain, ?_, ?_⟩
  · simpa using idsFrom_eq uploads items.length 0
  · rw [hmain]
    simp [List.count_cons, List.count_append,
      count_create_itemsEvents uploads items.length 0 0]

theorem post_with_media_pipeline_witness :
    runTrace (postTweetWithMedia clock61 uploadsDet emptyState "hi" none
      items2 ⟨"1", "hi"⟩) =
      .rateCheck "tweets/create" ::
        (itemsEvents uploadsDet 0 0 items2.length ++
          [.dispatchTweet (some (idsFrom uploadsDet 0 items2.length))]) :=
  (post_with_media_pipeline clock61 uploadsDet emptyState "hi" none items2
    ⟨"1", "hi"⟩ (by decide) rfl).1

end XMcp
